import Mathlib

set_option maxHeartbeats 1000000

/-!
Shallow embedding of the OAT-image navigation core of this repository
(the file art/oat.c, present in two near-duplicate variants: a richer one
and a terse one).  Machine pointers are modelled as natural-number
addresses with 0 playing the role of NULL; the read-only mapped image is
modelled by carrying its abstract content (header fields and the decoded
dex-file record stream) alongside the scalar fields of the C structures.
External DEX-parser capabilities are uninterpreted function bundles.
-/

/-- Location string of a dex-file record as stored in the image: an
explicit byte length plus the content bytes (not necessarily
null-terminated).  C character buffers are modelled as `List Char`. -/
structure LocString where
  length : Nat
  content : List Char
  deriving DecidableEq

/-- C struct OatDexFileData: the payload decoded out of one variable-length
dex-file record of the stream (location string, pointer to the embedded
DEX module bytes, per-class-definition offset table). -/
structure OatDexFileData where
  location_string : LocString
  dex_file_pointer : Nat
  class_definition_offsets : List Nat
  deriving DecidableEq

/-- One encoded record of the dex-file stream: its self-described byte
size in the image together with the payload its bytes decode to. -/
structure EncodedRec where
  size : Nat
  data : OatDexFileData
  deriving DecidableEq

/-- C struct OatHeader: the fields of the fixed-size header that this
core reads (dex-file count and the byte size of the key-value store). -/
structure OatHeader where
  dex_file_count_ : Nat
  key_value_store_size_ : Nat
  deriving DecidableEq

/-- Abstract content of the mapped byte range handed to setup: the header
stored at its start and the encoded dex-file record stream. -/
structure OatMemory where
  header : OatHeader
  records : List EncodedRec
  deriving DecidableEq

/-- C struct OatFile (the image context): scalar fields exactly as the C
struct stores them, plus the abstract content of the read-only mapped
memory the pointers refer to (header view and encoded record stream). -/
structure OatFile where
  begin : Nat
  end_ : Nat
  header : OatHeader
  key_value_storage_start : Nat
  dex_file_storage_start : Nat
  records : List EncodedRec
  deriving DecidableEq

/-- C struct OatDexFile: the decoded record plus the back-references the
lookup operations store into it (owning image context and stream index). -/
structure OatDexFile where
  data : OatDexFileData
  oat_file : OatFile
  index : Nat
  deriving DecidableEq

/-- Opaque class handle produced by the external DEX parser
(dex_FindClass / dex_GetClass); only the class_def handle is consumed. -/
structure DexClass where
  class_def : Nat
  deriving DecidableEq

/-- Opaque method handle produced by the external DEX parser; only the
in-class method index is consumed by this core. -/
structure DexMethod where
  class_method_idx : Nat
  deriving DecidableEq

/-- Opaque decoded OatClassData produced by the external class-metadata
decoder; this core only passes it through to GetOatMethodOffsets. -/
structure OatClassData where
  tag : Nat
  deriving DecidableEq

/-- C struct OatMethodOffsets: the compiled-code-offset record (the field
this core reads is code_offset_). -/
structure OatMethodOffsets where
  code_offset_ : Nat
  deriving DecidableEq

/-- C struct OatClass: decoded class handle, decoded class metadata, and
the back-reference to the owning dex-file record. -/
structure OatClass where
  dex_class : DexClass
  oat_class_data : OatClassData
  oat_dex_file : OatDexFile
  deriving DecidableEq

/-- C struct OatMethod: decoded method handle, the optional
compiled-code-offset record (a nullable pointer in C, here an Option),
and the back-reference to the owning class record. -/
structure OatMethod where
  dex_method : DexMethod
  oat_method_offsets : Option OatMethodOffsets
  oat_class : OatClass
  deriving DecidableEq

/-- External DEX-parser and decoder capabilities consumed by this core
(out-of-scope collaborators per the spec, section 6).  Modelled as an
uninterpreted bundle of functions so that theorems quantify over every
possible collaborator; out parameters of the C prototypes become Option
results, with none standing for a false return or a NULL pointer. -/
structure DexEnv where
  dex_FindClass : Nat → String → Option DexClass
  GetIndexForClassDef : Nat → Nat → Nat
  DecodeOatClassData : Option Nat → Nat → Option OatClassData
  dex_FindDirectMethod : DexClass → String → String → Option DexMethod
  dex_FindVirtualMethod : DexClass → String → String → Option DexMethod
  GetOatMethodOffsets : OatClassData → Nat → Option OatMethodOffsets

/-- Ground-truth tri-state outcome of a search, as the spec describes it
(found, search completed with no match, decode could not proceed). -/
inductive SearchOutcome where
  | found
  | notFound
  | failure
  deriving DecidableEq

/-- Result of a C function returning a code address: a proper address, or
undefined behaviour from dereferencing a null pointer on the way. -/
inductive EntryPointResult where
  | addr (a : Nat)
  | nullDeref
  deriving DecidableEq

/-- Modelled from the spec: the fixed size of the OAT header up to the
start of its trailing key-value store (the offset of the C flexible
array member key_value_store_[0]); the concrete value is irrelevant to
every claim, only the symbolic relation to it matters. -/
def oatHeaderKeyValueStoreOffset : Nat := 84

/-- C function oat_PointerFromFileOffset: NULL image context fails the
CHECK and returns NULL; offset 0 is the reserved absent sentinel and
returns NULL; any other offset is added to the image base with no bounds
check.  NULL pointers are modelled by none. -/
def oat_PointerFromFileOffset (oat_file : Option OatFile) (offset : Nat) : Option Nat :=
  match oat_file with
  | none => none
  | some f => if offset = 0 then none else some (f.begin + offset)

/-- C function oat_Setup (byte-identical in both source variants): fails
the CHECKs when either pointer is NULL (address 0) or the range is not
strictly increasing; otherwise stores begin, end, the header view at
begin, and the two derived region start addresses.  The header content
read at mem_begin is supplied by the OatMemory abstraction. -/
def oat_Setup (mem : OatMemory) (mem_begin mem_end : Nat) : Option OatFile :=
  if mem_begin = 0 ∨ mem_end = 0 then none
  else if ¬ mem_begin < mem_end then none
  else some
    { begin := mem_begin
      end_ := mem_end
      header := mem.header
      key_value_storage_start := mem_begin + oatHeaderKeyValueStoreOffset
      dex_file_storage_start := mem_begin + oatHeaderKeyValueStoreOffset
                                  + mem.header.key_value_store_size_
      records := mem.records }

/-- Modelled from the spec: NumDexFiles reads the dex-file count field of
the header. -/
def NumDexFiles (h : OatHeader) : Nat := h.dex_file_count_

/-- Modelled from the spec: GetDexFileStoragePointer yields the start
address of the dex-file record stream derived at setup. -/
def GetDexFileStoragePointer (f : OatFile) : Nat := f.dex_file_storage_start

/-- Byte address at which the i-th record of the stream starts: the
stream start plus the sizes of all earlier records (records are packed
sequentially and each decode advances the cursor by the record's
self-described length). -/
def recordStart (f : OatFile) (i : Nat) : Nat :=
  f.dex_file_storage_start + ((f.records.take i).map EncodedRec.size).sum

/-- Modelled from the spec: ReadOatDexFileData, the decode_next primitive
of the directory walker, absent from src/.  It reads one variable-length
record and fails exactly when the read would cross the end of the mapped
range; the sequential cursor is abstracted by the record index, with
recordStart giving its byte address, and bytes past the encoded stream
do not form a valid record. -/
def ReadOatDexFileData (f : OatFile) (i : Nat) : Option OatDexFileData :=
  match f.records.get? i with
  | none => none
  | some r => if recordStart f i + r.size ≤ f.end_ then some r.data else none

/-- C comparison in oat_FindDexFile: strncmp over the first n bytes
compared for equality (location strings are assumed free of embedded
NUL bytes, as C string comparison requires). -/
def strncmpEq (a b : List Char) (n : Nat) : Bool :=
  a.take n == b.take n

/-- Match condition of oat_FindDexFile on one decoded record: first the
exact length comparison (strlen against the stored length field), then
strncmp of the query against the stored content bytes. -/
def recMatches (location : List Char) (d : OatDexFileData) : Bool :=
  location.length == d.location_string.length
    && strncmpEq location d.location_string.content location.length

/-- Loop of oat_FindDexFile from index i with the given number of
remaining iterations: decode the next record (bailing out with a false
return on decode failure), return it on an exact location match,
otherwise continue; a false return is the sole channel for both
not-found and decode failure.  Option none models the false return. -/
def findDexFrom (f : OatFile) (location : List Char) : Nat → Nat → Option OatDexFile
  | _, 0 => none
  | i, fuel + 1 =>
    match ReadOatDexFileData f i with
    | none => none
    | some d =>
      if recMatches location d then some { data := d, oat_file := f, index := i }
      else findDexFrom f location (i + 1) fuel

/-- C function oat_FindDexFile (present in both variants with the same
body): walks all NumDexFiles records from the stream start looking for an
exact location match.  Returns the filled result record on a true
return; none models the false return, which the C code uses for decode
failure and not-found alike. -/
def oat_FindDexFile (f : OatFile) (location : List Char) : Option OatDexFile :=
  findDexFrom f location 0 (NumDexFiles f.header)

/-- Follows the spec's words: ground-truth tri-state classification of
the find-by-location walk from index i (found / not-found / failure),
used to state what a caller would need in order to distinguish the two
negative outcomes. -/
def findDexOutcomeFrom (f : OatFile) (location : List Char) : Nat → Nat → SearchOutcome
  | _, 0 => .notFound
  | i, fuel + 1 =>
    match ReadOatDexFileData f i with
    | none => .failure
    | some d =>
      if recMatches location d then .found
      else findDexOutcomeFrom f location (i + 1) fuel

/-- Follows the spec's words: ground-truth tri-state outcome of a full
find-by-location search. -/
def findDexOutcome (f : OatFile) (location : List Char) : SearchOutcome :=
  findDexOutcomeFrom f location 0 (NumDexFiles f.header)

/-- Sequential decode of records 0 up to i as the oat_GetOatDexFile loop
performs it, yielding the payload of the last one; a decode failure at
any point aborts the whole walk. -/
def decodeUpTo (f : OatFile) : Nat → Option OatDexFileData
  | 0 => ReadOatDexFileData f 0
  | i + 1 =>
    match decodeUpTo f i with
    | none => none
    | some _ => ReadOatDexFileData f (i + 1)

/-- C function oat_GetOatDexFile: fails the CHECK when the index is not
below NumDexFiles, otherwise decodes records sequentially from the
stream start up to the requested index (bailing out on any decode
failure) and fills the result with the last decoded payload and the
back-references. -/
def oat_GetOatDexFile (f : OatFile) (index : Nat) : Option OatDexFile :=
  if index < NumDexFiles f.header then
    match decodeUpTo f index with
    | none => none
    | some d => some { data := d, oat_file := f, index := index }
  else none

/-- C function oat_FindClassInDex (richer variant): asks the DEX parser
for the class by descriptor (none models the not-found false return),
maps the class-def handle to its index, reads the per-class-definition
offset table, resolves the offset through oat_PointerFromFileOffset (so
a zero offset yields a NULL pointer), and hands the pointer to the
bounds-checked class-metadata decoder; on success it stores the
back-reference to the owning dex-file record.  The C offset-table access
is unchecked array indexing; the index is in range for every image
honouring the format (one table entry per class definition), modelled
with a default of 0 outside that range. -/
def oat_FindClassInDex (env : DexEnv) (oat_dex_file : OatDexFile)
    (descriptor : String) : Option OatClass :=
  match env.dex_FindClass oat_dex_file.data.dex_file_pointer descriptor with
  | none => none
  | some dc =>
    let class_def_index := env.GetIndexForClassDef oat_dex_file.data.dex_file_pointer dc.class_def
    let class_def_offset := oat_dex_file.data.class_definition_offsets.getD class_def_index 0
    let oat_class_def_pointer :=
      oat_PointerFromFileOffset (some oat_dex_file.oat_file) class_def_offset
    match env.DecodeOatClassData oat_class_def_pointer oat_dex_file.oat_file.end_ with
    | none => none
    | some ocd =>
      some { dex_class := dc, oat_class_data := ocd, oat_dex_file := oat_dex_file }

/-- Follows the spec's words: ground-truth tri-state classification of
one per-dex-file class resolution (not-found when the DEX parser has no
such class, failure when the class metadata could not be decoded, found
otherwise). -/
def findClassInDexOutcome (env : DexEnv) (oat_dex_file : OatDexFile)
    (descriptor : String) : SearchOutcome :=
  match env.dex_FindClass oat_dex_file.data.dex_file_pointer descriptor with
  | none => .notFound
  | some dc =>
    let class_def_index := env.GetIndexForClassDef oat_dex_file.data.dex_file_pointer dc.class_def
    let class_def_offset := oat_dex_file.data.class_definition_offsets.getD class_def_index 0
    let oat_class_def_pointer :=
      oat_PointerFromFileOffset (some oat_dex_file.oat_file) class_def_offset
    match env.DecodeOatClassData oat_class_def_pointer oat_dex_file.oat_file.end_ with
    | none => .failure
    | some _ => .found

namespace Terse

/-- C function oat_FindClass of the terse variant (the per-dex-file class
resolver of the second source file): identical to oat_FindClassInDex
except that the class-definition offset is turned into a pointer by
direct arithmetic on the image base, without the zero-offset check of
oat_PointerFromFileOffset. -/
def oat_FindClass (env : DexEnv) (oat_dex_file : OatDexFile)
    (descriptor : String) : Option OatClass :=
  match env.dex_FindClass oat_dex_file.data.dex_file_pointer descriptor with
  | none => none
  | some dc =>
    let class_def_index := env.GetIndexForClassDef oat_dex_file.data.dex_file_pointer dc.class_def
    let class_def_offset := oat_dex_file.data.class_definition_offsets.getD class_def_index 0
    let oat_class_def_pointer := some (oat_dex_file.oat_file.begin + class_def_offset)
    match env.DecodeOatClassData oat_class_def_pointer oat_dex_file.oat_file.end_ with
    | none => none
    | some ocd =>
      some { dex_class := dc, oat_class_data := ocd, oat_dex_file := oat_dex_file }

end Terse

/-- Loop of the across-files oat_FindClass (richer variant) from dex-file
index i with the given number of remaining iterations: fetch the i-th
dex-file record (an immediate false return on its decode failure), try
the per-dex-file resolver on it, return its first success, otherwise
continue with the next index. -/
def findClassFrom (env : DexEnv) (f : OatFile) (descriptor : String) :
    Nat → Nat → Option (OatDexFile × OatClass)
  | _, 0 => none
  | i, fuel + 1 =>
    match oat_GetOatDexFile f i with
    | none => none
    | some odf =>
      match oat_FindClassInDex env odf descriptor with
      | some c => some (odf, c)
      | none => findClassFrom env f descriptor (i + 1) fuel

/-- C function oat_FindClass (richer variant, the across-files search):
iterates the dex-file records by index from 0 up to the header's
dex-file count, returning the first class the per-dex-file resolver
finds.  The caller may pass NULL output slots in C (replaced by local
ignored buffers); the model always returns both produced records, which
is observationally identical for every non-NULL slot. -/
def oat_FindClass (env : DexEnv) (f : OatFile) (descriptor : String) :
    Option (OatDexFile × OatClass) :=
  findClassFrom env f descriptor 0 f.header.dex_file_count_

/-- Follows the spec's words: ground-truth classification of the
across-files class search from dex-file index i.  The false report of
oat_FindClass covers two distinct ground truths: failure when fetching a
dex-file record from the stream aborts the walk (decode could not
proceed), and not-found when the loop exhausts the dex-file count with
no success; a per-record resolution that itself returns the false value
is followed, as in the C loop, by the next index (see the C3 analysis
for that conflation). -/
def findClassOutcomeFrom (env : DexEnv) (f : OatFile) (desc : String) :
    Nat → Nat → SearchOutcome
  | _, 0 => .notFound
  | i, fuel + 1 =>
    match oat_GetOatDexFile f i with
    | none => .failure
    | some odf =>
      match oat_FindClassInDex env odf desc with
      | some _ => .found
      | none => findClassOutcomeFrom env f desc (i + 1) fuel

/-- Follows the spec's words: ground-truth outcome of a full
across-files class search. -/
def findClassOutcome (env : DexEnv) (f : OatFile) (desc : String) : SearchOutcome :=
  findClassOutcomeFrom env f desc 0 f.header.dex_file_count_

/-- C function oat_FindDirectMethod (identical in both variants): asks
the DEX parser for the direct method (none models the false return);
on a match, consults GetOatMethodOffsets, whose NULL result is stored
as a legitimate absent compiled-code-offset record, and stores the
back-reference to the owning class record. -/
def oat_FindDirectMethod (env : DexEnv) (oat_class : OatClass)
    (descriptor signature : String) : Option OatMethod :=
  match env.dex_FindDirectMethod oat_class.dex_class descriptor signature with
  | none => none
  | some dm =>
    let meth_off := env.GetOatMethodOffsets oat_class.oat_class_data dm.class_method_idx
    some { dex_method := dm, oat_method_offsets := meth_off, oat_class := oat_class }

/-- C function oat_FindVirtualMethod (identical in both variants): as
oat_FindDirectMethod but consulting the virtual-method table of the DEX
parser. -/
def oat_FindVirtualMethod (env : DexEnv) (oat_class : OatClass)
    (descriptor signature : String) : Option OatMethod :=
  match env.dex_FindVirtualMethod oat_class.dex_class descriptor signature with
  | none => none
  | some dm =>
    let meth_off := env.GetOatMethodOffsets oat_class.oat_class_data dm.class_method_idx
    some { dex_method := dm, oat_method_offsets := meth_off, oat_class := oat_class }

/-- C function oat_FindMethod (richer variant): tries the direct-method
lookup first, then the virtual-method lookup, returning the first
match. -/
def oat_FindMethod (env : DexEnv) (oat_class : OatClass)
    (descriptor signature : String) : Option OatMethod :=
  match oat_FindDirectMethod env oat_class descriptor signature with
  | some m => some m
  | none => oat_FindVirtualMethod env oat_class descriptor signature

/-- C function oat_HasQuickCompiledCode: true exactly when the optional
compiled-code-offset record is present (the C NULL test on the stored
pointer); the NULL-method CHECK is subsumed by passing the record by
value. -/
def oat_HasQuickCompiledCode (m : OatMethod) : Bool :=
  m.oat_method_offsets.isSome

/-- C function oat_GetQuickCompiledEntryPoint: reads code_offset_ through
the stored oat_method_offsets pointer and adds the image base reached
through the back-reference chain.  The C code performs no NULL check on
oat_method_offsets, so an absent record makes it read through a null
pointer: that undefined behaviour is modelled explicitly as nullDeref.
The NULL-method CHECK is subsumed by passing the record by value. -/
def oat_GetQuickCompiledEntryPoint (m : OatMethod) : EntryPointResult :=
  match m.oat_method_offsets with
  | none => .nullDeref
  | some off => .addr (m.oat_class.oat_dex_file.oat_file.begin + off.code_offset_)

/-- Concrete test payload: a first dex-file record named classes.dex
whose single class-definition offset is the reserved value 0. -/
def rec0Data : OatDexFileData :=
  { location_string := { length := 11, content := "classes.dex".toList }
    dex_file_pointer := 1000
    class_definition_offsets := [0] }

/-- Concrete test payload: a second dex-file record named classes2.dex
with a proper non-zero class-definition offset. -/
def rec1Data : OatDexFileData :=
  { location_string := { length := 12, content := "classes2.dex".toList }
    dex_file_pointer := 2000
    class_definition_offsets := [100] }

/-- Header of a one-record test image. -/
def hdr1 : OatHeader := { dex_file_count_ := 1, key_value_store_size_ := 16 }

/-- Header of a two-record test image. -/
def hdr2 : OatHeader := { dex_file_count_ := 2, key_value_store_size_ := 16 }

/-- Well-formed two-record test image: both records decode within the
mapped range (record 0 spans 4196..4228, record 1 spans 4228..4264,
both below the end address 8192). -/
def wImg : OatFile :=
  { begin := 4096, end_ := 8192, header := hdr2
    key_value_storage_start := 4180, dex_file_storage_start := 4196
    records := [{ size := 32, data := rec0Data }, { size := 36, data := rec1Data }] }

/-- Well-formed one-record test image used for a completed search with
no match. -/
def wImgNF : OatFile :=
  { begin := 4096, end_ := 8192, header := hdr1
    key_value_storage_start := 4180, dex_file_storage_start := 4196
    records := [{ size := 32, data := rec0Data }] }

/-- Truncated one-record test image: the mapped range ends at 4200, so
decoding record 0 (which would span 4196..4228) crosses the end and
fails. -/
def wImgFail : OatFile :=
  { begin := 4096, end_ := 4200, header := hdr1
    key_value_storage_start := 4180, dex_file_storage_start := 4196
    records := [{ size := 32, data := rec0Data }] }

/-- Two-record test image truncated after the first record: record 0
decodes (ends at 4228, below 4230) but record 1 would span 4228..4264
and fails to decode. -/
def wImgHalf : OatFile :=
  { begin := 4096, end_ := 4230, header := hdr2
    key_value_storage_start := 4180, dex_file_storage_start := 4196
    records := [{ size := 32, data := rec0Data }, { size := 36, data := rec1Data }] }

/-- Dex-file record 0 of wImg as oat_GetOatDexFile returns it. -/
def wOdf0 : OatDexFile := { data := rec0Data, oat_file := wImg, index := 0 }

/-- Dex-file record 1 of wImg as oat_GetOatDexFile returns it. -/
def wOdf1 : OatDexFile := { data := rec1Data, oat_file := wImg, index := 1 }

/-- Concrete collaborator bundle for class lookups: both embedded DEX
modules of the test image contain the looked-up class at
class-definition index 0, and the class-metadata decoder succeeds on
every non-NULL pointer within bounds and fails on NULL (it is
bounds-checked, per the spec). -/
def envCls : DexEnv :=
  { dex_FindClass := fun p d0 =>
      if (p == 1000 || p == 2000) && d0 == "LFoo;" then some { class_def := 7 } else none
    GetIndexForClassDef := fun _ _ => 0
    DecodeOatClassData := fun ptr bound =>
      match ptr with
      | none => none
      | some a => if a ≤ bound then some { tag := a } else none
    dex_FindDirectMethod := fun _ _ _ => none
    dex_FindVirtualMethod := fun _ _ _ => none
    GetOatMethodOffsets := fun _ _ => none }

/-- Concrete collaborator bundle for method lookups: the direct-method
table matches, and the compiled-code-offset accessor reports that the
method was not ahead-of-time compiled (NULL offsets record). -/
def envNoAot : DexEnv :=
  { dex_FindClass := fun _ _ => none
    GetIndexForClassDef := fun _ _ => 0
    DecodeOatClassData := fun _ _ => none
    dex_FindDirectMethod := fun _ _ _ => some { class_method_idx := 5 }
    dex_FindVirtualMethod := fun _ _ _ => some { class_method_idx := 6 }
    GetOatMethodOffsets := fun _ _ => none }

/-- Class record that envCls resolves out of wOdf1 (offset 100 resolves
to address 4196, within bounds). -/
def wCls1 : OatClass :=
  { dex_class := { class_def := 7 }, oat_class_data := { tag := 4196 }, oat_dex_file := wOdf1 }

/-- Method record found by envNoAot in wCls1: present in the DEX tables
but with no compiled-code-offset record. -/
def wMethNoCode : OatMethod :=
  { dex_method := { class_method_idx := 5 }, oat_method_offsets := none, oat_class := wCls1 }

/-- Method record with a compiled-code-offset record whose code offset
is 0, for contrasting direct pointer arithmetic with the offset
resolver. -/
def wMethZero : OatMethod :=
  { dex_method := { class_method_idx := 5 }
    oat_method_offsets := some { code_offset_ := 0 }
    oat_class := wCls1 }

/-- Mapped-memory content whose header reports a key-value store far
larger than the mapped range, for showing that setup performs no
validation of the derived stream start against the end pointer. -/
def memBig : OatMemory :=
  { header := { dex_file_count_ := 2, key_value_store_size_ := 100000 }, records := [] }

/-- The context oat_Setup builds from memBig over the range 1..2. -/
def fBig : OatFile :=
  { begin := 1, end_ := 2, header := { dex_file_count_ := 2, key_value_store_size_ := 100000 }
    key_value_storage_start := 85, dex_file_storage_start := 100085, records := [] }

/-- The exact-match condition of the walk agrees with plain equality of
the query and the stored content bytes whenever the stored length field
is consistent with the content. -/
lemma recMatches_iff (q : List Char) (d : OatDexFileData)
    (hlen : d.location_string.content.length = d.location_string.length) :
    recMatches q d = true ↔ q = d.location_string.content := by
  simp only [recMatches, strncmpEq, Bool.and_eq_true, beq_iff_eq]
  constructor
  · rintro ⟨h1, h2⟩
    rw [List.take_length, h1, ← hlen, List.take_length] at h2
    exact h2
  · intro h
    subst h
    exact ⟨hlen, rfl⟩

/-- The find-by-location loop returns the false-report value when every
record it would visit decodes but fails the match condition. -/
lemma findDexFrom_none_of_no_match (f : OatFile) (q : List Char) :
    ∀ (fuel i : Nat),
      (∀ k, i ≤ k → k < i + fuel →
        ∃ d, ReadOatDexFileData f k = some d ∧ recMatches q d = false) →
      findDexFrom f q i fuel = none := by
  intro fuel
  induction fuel with
  | zero => intro i _; rfl
  | succ fu ih =>
    intro i h
    obtain ⟨d, hd, hm⟩ := h i le_rfl (by omega)
    simp only [findDexFrom, hd, hm]
    exact ih (i + 1) (fun k hk1 hk2 => h k (by omega) (by omega))

/-- The find-by-location loop returns the record at the first matching
position when the earlier positions all decode and fail the match. -/
lemma findDexFrom_eq_of_first_match (f : OatFile) (q : List Char) :
    ∀ (fuel i j : Nat) (d : OatDexFileData), i ≤ j → j < i + fuel →
      (∀ k, i ≤ k → k < j →
        ∃ dk, ReadOatDexFileData f k = some dk ∧ recMatches q dk = false) →
      ReadOatDexFileData f j = some d → recMatches q d = true →
      findDexFrom f q i fuel = some { data := d, oat_file := f, index := j } := by
  intro fuel
  induction fuel with
  | zero => intro i j d h1 h2 _ _ _; omega
  | succ fu ih =>
    intro i j d hij hlt hskip hd hm
    rcases Nat.eq_or_lt_of_le hij with heq | hlt2
    · subst heq
      simp only [findDexFrom, hd, hm, if_true]
    · obtain ⟨di, hdi, hmi⟩ := hskip i le_rfl hlt2
      simp only [findDexFrom, hdi, hmi]
      exact ih (i + 1) j d (by omega) (by omega)
        (fun k hk1 hk2 => hskip k (by omega) hk2) hd hm

/-- The loop reports a true return exactly on the ground-truth found
outcome; the two negative ground-truth outcomes both map to the false
report. -/
lemma findDexFrom_isSome_iff (f : OatFile) (q : List Char) :
    ∀ (fuel i : Nat),
      (findDexFrom f q i fuel).isSome = true ↔
        findDexOutcomeFrom f q i fuel = .found := by
  intro fuel
  induction fuel with
  | zero => intro i; simp [findDexFrom, findDexOutcomeFrom]
  | succ fu ih =>
    intro i
    cases hr : ReadOatDexFileData f i with
    | none => simp [findDexFrom, findDexOutcomeFrom, hr]
    | some d =>
      cases hm : recMatches q d with
      | true => simp [findDexFrom, findDexOutcomeFrom, hr, hm]
      | false => simp only [findDexFrom, findDexOutcomeFrom, hr, hm]; exact ih (i + 1)

/-- Inversion for a successful find-by-location walk: the returned
record carries the queried context as its back-reference, sits at its
reported stream position, and satisfies the match condition. -/
lemma findDexFrom_some_inv (f : OatFile) (q : List Char) :
    ∀ (fuel i : Nat) (r : OatDexFile), findDexFrom f q i fuel = some r →
      r.oat_file = f ∧ ReadOatDexFileData f r.index = some r.data ∧
        recMatches q r.data = true := by
  intro fuel
  induction fuel with
  | zero => intro i r h; exact absurd h (by simp [findDexFrom])
  | succ fu ih =>
    intro i r h
    cases hr : ReadOatDexFileData f i with
    | none => rw [findDexFrom, hr] at h; exact absurd h (by simp)
    | some d =>
      cases hm : recMatches q d with
      | false =>
        rw [findDexFrom, hr] at h
        simp only [hm, Bool.false_eq_true, if_false] at h
        exact ih (i + 1) r h
      | true =>
        rw [findDexFrom, hr] at h
        simp only [hm, if_true] at h
        injection h with h2
        rw [← h2]
        exact ⟨rfl, hr, hm⟩

/-- When every record up to i decodes, the sequential walk of
oat_GetOatDexFile ends at exactly the i-th positional decode. -/
lemma decodeUpTo_eq_read (f : OatFile) :
    ∀ (i : Nat), (∀ j, j ≤ i → (ReadOatDexFileData f j).isSome = true) →
      decodeUpTo f i = ReadOatDexFileData f i := by
  intro i
  induction i with
  | zero => intro _; rfl
  | succ n ih =>
    intro h
    have h1 := ih (fun j hj => h j (by omega))
    have h2 := h n (by omega)
    rw [decodeUpTo, h1]
    cases hr : ReadOatDexFileData f n with
    | none => rw [hr] at h2; simp at h2
    | some d => rfl

/-- The across-files class-search loop may be advanced past a block of
indices whose records decode but contain no match, without changing its
result. -/
lemma findClassFrom_shift (env : DexEnv) (f : OatFile) (desc : String) :
    ∀ (d i fuel : Nat), d ≤ fuel →
      (∀ k, i ≤ k → k < i + d →
        ∃ rk, oat_GetOatDexFile f k = some rk ∧ oat_FindClassInDex env rk desc = none) →
      findClassFrom env f desc i fuel = findClassFrom env f desc (i + d) (fuel - d) := by
  intro d
  induction d with
  | zero => intro i fuel _ _; simp
  | succ n ih =>
    intro i fuel hle h
    obtain ⟨fu, rfl⟩ : ∃ fu, fuel = fu + 1 := ⟨fuel - 1, by omega⟩
    obtain ⟨ri, hget, hnone⟩ := h i le_rfl (by omega)
    have step : findClassFrom env f desc i (fu + 1) = findClassFrom env f desc (i + 1) fu := by
      simp only [findClassFrom, hget, hnone]
    rw [step, ih (i + 1) fu (by omega) (fun k hk1 hk2 => h k (by omega) (by omega))]
    have e1 : i + 1 + n = i + (n + 1) := by omega
    have e2 : fu - n = fu + 1 - (n + 1) := by omega
    rw [e1, e2]

/-- A boolean-reporting search whose true return coincides with the
ground-truth found outcome necessarily reports the identical false value
for the two negative ground truths. -/
lemma twoStateOfIsSome {α : Type} (x : Option α) (o : SearchOutcome)
    (h : x.isSome = true ↔ o = .found) :
    (x.isSome = true ↔ o = .found) ∧
    (x = none ↔ (o = .notFound ∨ o = .failure)) := by
  refine ⟨h, ?_⟩
  have hiff : x = none ↔ ¬ x.isSome = true := by cases x <;> simp
  rw [hiff, h]
  cases o <;> simp

/-- The across-files class-search loop reports a true return exactly on
the ground-truth found outcome of its classifier. -/
lemma findClassFrom_isSome_iff (env : DexEnv) (f : OatFile) (desc : String) :
    ∀ (fuel i : Nat),
      (findClassFrom env f desc i fuel).isSome = true ↔
        findClassOutcomeFrom env f desc i fuel = .found := by
  intro fuel
  induction fuel with
  | zero => intro i; simp [findClassFrom, findClassOutcomeFrom]
  | succ fu ih =>
    intro i
    cases hg : oat_GetOatDexFile f i with
    | none => simp [findClassFrom, findClassOutcomeFrom, hg]
    | some odf =>
      cases hc : oat_FindClassInDex env odf desc with
      | some c => simp [findClassFrom, findClassOutcomeFrom, hg, hc]
      | none =>
        simp only [findClassFrom, findClassOutcomeFrom, hg, hc]
        exact ih (i + 1)

/-- C7: for every image context and every 32-bit offset, the offset
resolver returns begin + offset for every positive offset and none for
the reserved zero offset, performs no bounds check against the context
end (its result is invariant under any change of the end field) and has
no side effects (it is a pure function of its arguments). -/
theorem pointer_from_file_offset_spec (f : OatFile) (o : Nat) (_h32 : o < 2 ^ 32) :
    (0 < o → oat_PointerFromFileOffset (some f) o = some (f.begin + o)) ∧
    (o = 0 → oat_PointerFromFileOffset (some f) o = none) ∧
    (∀ e, oat_PointerFromFileOffset (some { f with end_ := e }) o =
      oat_PointerFromFileOffset (some f) o) := by
  refine ⟨fun h0 => ?_, fun h0 => ?_, fun e => ?_⟩
  · simp [oat_PointerFromFileOffset, Nat.pos_iff_ne_zero.mp h0]
  · simp [oat_PointerFromFileOffset, h0]
  · simp [oat_PointerFromFileOffset]

/-- C7 witness: on the concrete context, offset 5 resolves to base 4096
plus 5 and offset 0 resolves to none. -/
theorem pointer_from_file_offset_spec_witness :
    oat_PointerFromFileOffset (some wImg) 5 = some 4101 ∧
    oat_PointerFromFileOffset (some wImg) 0 = none := by
  constructor
  · exact (pointer_from_file_offset_spec wImg 5 (by norm_num)).1 (by norm_num)
  · exact (pointer_from_file_offset_spec wImg 0 (by norm_num)).2.1 rfl

/-- C8: for every method record with a present compiled-code-offset
record carrying code offset k, get_entry_point returns exactly the image
base plus k by direct pointer arithmetic; in particular at k = 0 it
still returns the base address, whereas the offset resolver would have
returned none, so the sum is not computed through the resolver. -/
theorem entry_point_direct_arithmetic (m : OatMethod) (off : OatMethodOffsets)
    (h : m.oat_method_offsets = some off) :
    oat_GetQuickCompiledEntryPoint m =
      .addr (m.oat_class.oat_dex_file.oat_file.begin + off.code_offset_) ∧
    (off.code_offset_ = 0 →
      oat_GetQuickCompiledEntryPoint m = .addr m.oat_class.oat_dex_file.oat_file.begin ∧
      oat_PointerFromFileOffset (some m.oat_class.oat_dex_file.oat_file) off.code_offset_
        = none) := by
  refine ⟨?_, fun h0 => ⟨?_, ?_⟩⟩
  · simp [oat_GetQuickCompiledEntryPoint, h]
  · simp [oat_GetQuickCompiledEntryPoint, h, h0]
  · simp [oat_PointerFromFileOffset, h0]

/-- C8 witness: the concrete method whose code offset is 0 gets entry
point 4096 (the image base) while the resolver maps offset 0 to none. -/
theorem entry_point_direct_arithmetic_witness :
    oat_GetQuickCompiledEntryPoint wMethZero = .addr 4096 ∧
    oat_PointerFromFileOffset (some wMethZero.oat_class.oat_dex_file.oat_file) 0 = none := by
  have h := entry_point_direct_arithmetic wMethZero { code_offset_ := 0 } rfl
  exact ⟨(h.2 rfl).1, (h.2 rfl).2⟩

/-- C9: setup fails exactly when begin is NULL, end is NULL, or the
range is not strictly increasing; on success it stores begin, end and
the header view at begin, and derives the key-value-store start as
begin plus the fixed header size and the dex-file-stream start from the
header's self-reported key-value-store size.  Success does not depend on
the header at all, so no validation of the derived stream start against
end is performed. -/
theorem setup_guards_and_fields (mem : OatMemory) (b e : Nat) :
    ((oat_Setup mem b e).isSome = true ↔ (b ≠ 0 ∧ e ≠ 0 ∧ b < e)) ∧
    (∀ f, oat_Setup mem b e = some f →
      f.begin = b ∧ f.end_ = e ∧ f.header = mem.header ∧
      f.key_value_storage_start = b + oatHeaderKeyValueStoreOffset ∧
      f.dex_file_storage_start =
        f.key_value_storage_start + mem.header.key_value_store_size_) := by
  constructor
  · unfold oat_Setup
    split_ifs with h1 h2 <;> simp <;> omega
  · intro f hf
    unfold oat_Setup at hf
    split_ifs at hf with h1 h2
    all_goals first
      | exact absurd hf (fun hc => Option.noConfusion hc)
      | (injection hf with h3
         rw [← h3]
         exact ⟨rfl, rfl, rfl, rfl, rfl⟩)

/-- C9 witness: setup succeeds on a header whose self-reported
key-value-store size puts the derived stream start far past the end of
the two-byte mapped range, demonstrating the absent validation. -/
theorem setup_guards_and_fields_witness :
    (oat_Setup memBig 1 2).isSome = true ∧
    fBig.dex_file_storage_start =
      fBig.key_value_storage_start + memBig.header.key_value_store_size_ ∧
    fBig.end_ < fBig.dex_file_storage_start := by
  refine ⟨(setup_guards_and_fields memBig 1 2).1.mpr ⟨by omega, by omega, by omega⟩,
    ((setup_guards_and_fields memBig 1 2).2 fBig (by decide)).2.2.2.2, by decide⟩

/-- C5: on a well-formed image (every record of the stream decodes), the
indexed accessor returns, for every index below the dex-file count, the
record sitting at that position of the stream (hence the same location
string as the i-th record of a full forward walk), and fails for every
index at or above the count. -/
theorem get_by_index_matches_walk (f : OatFile)
    (hwf : ∀ j, j < NumDexFiles f.header → (ReadOatDexFileData f j).isSome = true) :
    (∀ i ri, i < NumDexFiles f.header → f.records.get? i = some ri →
      oat_GetOatDexFile f i = some { data := ri.data, oat_file := f, index := i }) ∧
    (∀ i, NumDexFiles f.header ≤ i → oat_GetOatDexFile f i = none) := by
  constructor
  · intro i ri hi hri
    have hall : ∀ j, j ≤ i → (ReadOatDexFileData f j).isSome = true :=
      fun j hj => hwf j (lt_of_le_of_lt hj hi)
    have hread : ReadOatDexFileData f i = some ri.data := by
      have hs := hwf i hi
      simp only [ReadOatDexFileData, hri] at hs ⊢
      by_cases hc : recordStart f i + ri.size ≤ f.end_
      · rw [if_pos hc]
      · rw [if_neg hc] at hs
        simp at hs
    simp only [oat_GetOatDexFile, if_pos hi, decodeUpTo_eq_read f i hall, hread]
  · intro i hi
    rw [oat_GetOatDexFile, if_neg (by omega)]

/-- C5 witness: on the concrete two-record image, index 1 returns the
second stream record and index 2 (the count) fails. -/
theorem get_by_index_matches_walk_witness :
    oat_GetOatDexFile wImg 1 = some wOdf1 ∧ oat_GetOatDexFile wImg 2 = none := by
  have h := get_by_index_matches_walk wImg (by decide)
  exact ⟨h.1 1 { size := 36, data := rec1Data } (by decide) rfl, h.2 2 (by decide)⟩

/-- C6: on a well-formed image (every record decodes and carries a
consistent location length field), find-by-location returns the false
report whenever no record's location equals the query byte-for-byte —
any proper prefix or suffix of a stored location differs from it as a
character list, so such queries fall under this case — and returns the
record at the first exactly matching stream position otherwise. -/
theorem find_by_location_exact_match (f : OatFile) (q : List Char)
    (hwf : ∀ j, j < NumDexFiles f.header → ∃ d, ReadOatDexFileData f j = some d ∧
      d.location_string.content.length = d.location_string.length) :
    ((∀ j d, j < NumDexFiles f.header → ReadOatDexFileData f j = some d →
        q ≠ d.location_string.content) → oat_FindDexFile f q = none) ∧
    (∀ j d, j < NumDexFiles f.header → ReadOatDexFileData f j = some d →
      q = d.location_string.content →
      (∀ i di, i < j → ReadOatDexFileData f i = some di →
        q ≠ di.location_string.content) →
      oat_FindDexFile f q = some { data := d, oat_file := f, index := j }) := by
  constructor
  · intro hno
    show findDexFrom f q 0 (NumDexFiles f.header) = none
    apply findDexFrom_none_of_no_match
    intro k hk1 hk2
    obtain ⟨d, hd, hlen⟩ := hwf k (by omega)
    refine ⟨d, hd, ?_⟩
    have hne := hno k d (by omega) hd
    cases hmc : recMatches q d with
    | false => rfl
    | true => exact absurd ((recMatches_iff q d hlen).mp hmc) hne
  · intro j d hj hd hq hfirst
    obtain ⟨d2, hd2, hlen2⟩ := hwf j hj
    rw [hd] at hd2
    injection hd2 with he
    rw [← he] at hlen2
    show findDexFrom f q 0 (NumDexFiles f.header) =
      some { data := d, oat_file := f, index := j }
    apply findDexFrom_eq_of_first_match f q (NumDexFiles f.header) 0 j d (by omega) (by omega)
    · intro k hk1 hk2
      obtain ⟨dk, hdk, hlenk⟩ := hwf k (by omega)
      refine ⟨dk, hdk, ?_⟩
      have hne := hfirst k dk hk2 hdk
      cases hmc : recMatches q dk with
      | false => rfl
      | true => exact absurd ((recMatches_iff q dk hlenk).mp hmc) hne
    · exact hd
    · exact (recMatches_iff q d hlen2).mpr hq

/-- C6 witness: on the concrete two-record image (locations classes.dex
and classes2.dex), the seven-byte proper prefix query classes reports
not found while the exact query classes.dex returns record 0. -/
theorem find_by_location_exact_match_witness :
    oat_FindDexFile wImg "classes".toList = none ∧
    oat_FindDexFile wImg "classes.dex".toList = some wOdf0 := by
  have hwf : ∀ j, j < NumDexFiles wImg.header → ∃ d, ReadOatDexFileData wImg j = some d ∧
      d.location_string.content.length = d.location_string.length := by
    intro j hj
    have hj2 : j < 2 := hj
    interval_cases j
    · exact ⟨rec0Data, rfl, by decide⟩
    · exact ⟨rec1Data, rfl, by decide⟩
  constructor
  · apply (find_by_location_exact_match wImg ("classes".toList) hwf).1
    intro j d hj hd
    have hj2 : j < 2 := hj
    interval_cases j
    · rw [show ReadOatDexFileData wImg 0 = some rec0Data from rfl] at hd
      injection hd with he
      rw [← he]
      decide
    · rw [show ReadOatDexFileData wImg 1 = some rec1Data from rfl] at hd
      injection hd with he
      rw [← he]
      decide
  · exact (find_by_location_exact_match wImg ("classes.dex".toList) hwf).2 0 rec0Data
      (by decide) rfl (by decide) (fun i di hi _ => absurd hi (Nat.not_lt_zero i))

/-- C10: whenever a lookup succeeds, the returned record's
back-reference fields hold that lookup's inputs: find-by-location and
get-by-index store the queried image context (and the record's stream
position as its index), the per-dex-file class resolver stores the given
dex-file record, and the direct and virtual method lookups store the
given class record. -/
theorem lookup_backrefs_set :
    (∀ (f : OatFile) (q : List Char) (r : OatDexFile), oat_FindDexFile f q = some r →
      r.oat_file = f ∧ ReadOatDexFileData f r.index = some r.data) ∧
    (∀ (f : OatFile) (i : Nat) (r : OatDexFile), oat_GetOatDexFile f i = some r →
      r.oat_file = f ∧ r.index = i) ∧
    (∀ (env : DexEnv) (odf : OatDexFile) (d : String) (c : OatClass),
      oat_FindClassInDex env odf d = some c → c.oat_dex_file = odf) ∧
    (∀ (env : DexEnv) (oc : OatClass) (d s : String) (m : OatMethod),
      oat_FindDirectMethod env oc d s = some m → m.oat_class = oc) ∧
    (∀ (env : DexEnv) (oc : OatClass) (d s : String) (m : OatMethod),
      oat_FindVirtualMethod env oc d s = some m → m.oat_class = oc) := by
  refine ⟨?_, ?_, ?_, ?_, ?_⟩
  · intro f q r h
    have hinv := findDexFrom_some_inv f q (NumDexFiles f.header) 0 r h
    exact ⟨hinv.1, hinv.2.1⟩
  · intro f i r h
    rw [oat_GetOatDexFile] at h
    by_cases h1 : i < NumDexFiles f.header
    · rw [if_pos h1] at h
      cases hd : decodeUpTo f i with
      | none => rw [hd] at h; exact absurd h (fun hc => Option.noConfusion hc)
      | some d =>
        rw [hd] at h
        injection h with h2
        rw [← h2]
        exact ⟨rfl, rfl⟩
    · rw [if_neg h1] at h
      exact absurd h (fun hc => Option.noConfusion hc)
  · intro env odf d c h
    rw [oat_FindClassInDex] at h
    split at h
    · exact absurd h (fun hc => Option.noConfusion hc)
    · simp only [] at h
      split at h
      · exact absurd h (fun hc => Option.noConfusion hc)
      · injection h with h2
        rw [← h2]
  · intro env oc d s m h
    rw [oat_FindDirectMethod] at h
    split at h
    · exact absurd h (fun hc => Option.noConfusion hc)
    · injection h with h2
      rw [← h2]
  · intro env oc d s m h
    rw [oat_FindVirtualMethod] at h
    split at h
    · exact absurd h (fun hc => Option.noConfusion hc)
    · injection h with h2
      rw [← h2]

/-- C10 witness: each successful lookup on the concrete image stores the
expected back-references. -/
theorem lookup_backrefs_set_witness :
    wOdf0.oat_file = wImg ∧ wOdf1.index = 1 ∧ wCls1.oat_dex_file = wOdf1 ∧
    wMethNoCode.oat_class = wCls1 ∧
    (OatMethod.mk { class_method_idx := 6 } none wCls1).oat_class = wCls1 := by
  refine ⟨(lookup_backrefs_set.1 wImg ("classes.dex".toList) wOdf0 (by decide)).1,
    (lookup_backrefs_set.2.1 wImg 1 wOdf1 (by decide)).2,
    lookup_backrefs_set.2.2.1 envCls wOdf1 "LFoo;" wCls1 (by decide),
    lookup_backrefs_set.2.2.2.1 envNoAot wCls1 "m" "()V" wMethNoCode (by decide),
    lookup_backrefs_set.2.2.2.2 envNoAot wCls1 "m" "()V"
      (OatMethod.mk { class_method_idx := 6 } none wCls1) (by decide)⟩

/-- C2 as amended: every search operation reports only a two-state
outcome through its boolean return.  The dex-file search, the
per-dex-file class resolver and the across-files class search return
true (with the filled record) exactly on the ground-truth found outcome
of the respective classifier, while the single false value covers both
the completed-with-no-match and the decode-failure ground truths, which
are therefore not distinguishable from what the caller receives; the
direct and virtual method lookups return true exactly when the DEX
parser finds the method (they have no decode step of their own); and an
absent compiled-code-offset record is never surfaced through this
channel: the method lookup still reports true and stores the absent
record as an attribute of the returned method. -/
theorem search_report_two_state :
    (∀ (f : OatFile) (q : List Char),
      ((oat_FindDexFile f q).isSome = true ↔ findDexOutcome f q = .found) ∧
      (oat_FindDexFile f q = none ↔
        (findDexOutcome f q = .notFound ∨ findDexOutcome f q = .failure))) ∧
    (∀ (env : DexEnv) (odf : OatDexFile) (d : String),
      ((oat_FindClassInDex env odf d).isSome = true ↔
        findClassInDexOutcome env odf d = .found) ∧
      (oat_FindClassInDex env odf d = none ↔
        (findClassInDexOutcome env odf d = .notFound ∨
          findClassInDexOutcome env odf d = .failure))) ∧
    (∀ (env : DexEnv) (f : OatFile) (d : String),
      ((oat_FindClass env f d).isSome = true ↔ findClassOutcome env f d = .found) ∧
      (oat_FindClass env f d = none ↔
        (findClassOutcome env f d = .notFound ∨ findClassOutcome env f d = .failure))) ∧
    (∀ (env : DexEnv) (oc : OatClass) (d s : String),
      ((oat_FindDirectMethod env oc d s).isSome = true ↔
        (env.dex_FindDirectMethod oc.dex_class d s).isSome = true) ∧
      ((oat_FindVirtualMethod env oc d s).isSome = true ↔
        (env.dex_FindVirtualMethod oc.dex_class d s).isSome = true)) ∧
    (∀ (env : DexEnv) (oc : OatClass) (d s : String) (dm : DexMethod),
      env.dex_FindDirectMethod oc.dex_class d s = some dm →
      env.GetOatMethodOffsets oc.oat_class_data dm.class_method_idx = none →
      oat_FindDirectMethod env oc d s =
        some { dex_method := dm, oat_method_offsets := none, oat_class := oc }) := by
  refine ⟨?_, ?_, ?_, ?_, ?_⟩
  · intro f q
    rw [oat_FindDexFile, findDexOutcome]
    exact twoStateOfIsSome _ _ (findDexFrom_isSome_iff f q (NumDexFiles f.header) 0)
  · intro env odf d
    refine twoStateOfIsSome _ _ ?_
    rw [oat_FindClassInDex, findClassInDexOutcome]
    cases hdc : env.dex_FindClass odf.data.dex_file_pointer d with
    | none => simp
    | some dc =>
      simp only []
      cases hdec : env.DecodeOatClassData
          (oat_PointerFromFileOffset (some odf.oat_file)
            (odf.data.class_definition_offsets.getD
              (env.GetIndexForClassDef odf.data.dex_file_pointer dc.class_def) 0))
          odf.oat_file.end_ with
      | none => simp
      | some ocd => simp
  · intro env f d
    rw [oat_FindClass, findClassOutcome]
    exact twoStateOfIsSome _ _ (findClassFrom_isSome_iff env f d f.header.dex_file_count_ 0)
  · intro env oc d s
    constructor
    · rw [oat_FindDirectMethod]
      cases h : env.dex_FindDirectMethod oc.dex_class d s <;> simp
    · rw [oat_FindVirtualMethod]
      cases h : env.dex_FindVirtualMethod oc.dex_class d s <;> simp
  · intro env oc d s dm hdm hoff
    rw [oat_FindDirectMethod, hdm]
    simp only [hoff]

/-- C2 witness: a method present in the DEX tables but without a
compiled-code-offset record is still reported as a true return, with
the absent record stored in the result. -/
theorem search_report_two_state_witness :
    oat_FindDirectMethod envNoAot wCls1 "m" "()V" =
      some { dex_method := { class_method_idx := 5 }, oat_method_offsets := none,
             oat_class := wCls1 } :=
  search_report_two_state.2.2.2.2 envNoAot wCls1 "m" "()V" { class_method_idx := 5 } rfl rfl

/-- C2 counterexample: for the dex-file search, the per-dex-file class
resolver and the across-files class search alike, a run whose ground
truth is completed-with-no-match and a run whose ground truth is a
decode failure report the identical value to the caller, so no caller
can tell the two apart and the reported outcome is two-valued, not the
claimed tri-state. -/
theorem search_report_conflation_cex :
    findDexOutcome wImgNF "bb".toList = .notFound ∧
    findDexOutcome wImgFail "bb".toList = .failure ∧
    oat_FindDexFile wImgNF "bb".toList = oat_FindDexFile wImgFail "bb".toList ∧
    findClassInDexOutcome envCls wOdf1 "LBar;" = .notFound ∧
    findClassInDexOutcome envCls wOdf0 "LFoo;" = .failure ∧
    oat_FindClassInDex envCls wOdf1 "LBar;" = oat_FindClassInDex envCls wOdf0 "LFoo;" ∧
    findClassOutcome envCls wImgNF "LBar;" = .notFound ∧
    findClassOutcome envCls wImgFail "LFoo;" = .failure ∧
    oat_FindClass envCls wImgNF "LBar;" = oat_FindClass envCls wImgFail "LFoo;" := by
  decide

/-- C3 as amended: the across-files class search iterates dex-file
records by index from 0 up to the dex-file count; when the records
before index j all decode and yield no class, a failure to decode the
dex-file record at j itself is propagated immediately as the false
return, and a class found at j is returned as the first success. -/
theorem find_class_walk_propagation (env : DexEnv) (f : OatFile) (desc : String)
    (j : Nat) (hj : j < f.header.dex_file_count_)
    (hprev : ∀ i, i < j → ∃ ri, oat_GetOatDexFile f i = some ri ∧
      oat_FindClassInDex env ri desc = none) :
    (oat_GetOatDexFile f j = none → oat_FindClass env f desc = none) ∧
    (∀ rj c, oat_GetOatDexFile f j = some rj → oat_FindClassInDex env rj desc = some c →
      oat_FindClass env f desc = some (rj, c)) := by
  have hshift := findClassFrom_shift env f desc j 0 f.header.dex_file_count_ (by omega)
    (fun k hk1 hk2 => hprev k (by omega))
  rw [Nat.zero_add] at hshift
  obtain ⟨m, hm⟩ : ∃ m, f.header.dex_file_count_ - j = m + 1 :=
    ⟨f.header.dex_file_count_ - j - 1, by omega⟩
  constructor
  · intro hnone
    rw [oat_FindClass, hshift, hm]
    simp only [findClassFrom, hnone]
  · intro rj c hget hcls
    rw [oat_FindClass, hshift, hm]
    simp only [findClassFrom, hget, hcls]

/-- C3 witness: on the concrete two-record image the search returns the
class found in record 1 after record 0 yields none, and on the image
truncated after record 0 the failure to decode record 1 itself is
propagated as the false return. -/
theorem find_class_walk_propagation_witness :
    oat_FindClass envCls wImg "LFoo;" = some (wOdf1, wCls1) ∧
    oat_FindClass envCls wImgHalf "LFoo;" = none := by
  have hprevW : ∀ i, i < 1 → ∃ ri, oat_GetOatDexFile wImg i = some ri ∧
      oat_FindClassInDex envCls ri "LFoo;" = none := by
    intro i hi
    interval_cases i
    exact ⟨wOdf0, by decide, by decide⟩
  have hprevH : ∀ i, i < 1 → ∃ ri, oat_GetOatDexFile wImgHalf i = some ri ∧
      oat_FindClassInDex envCls ri "LFoo;" = none := by
    intro i hi
    interval_cases i
    exact ⟨{ data := rec0Data, oat_file := wImgHalf, index := 0 }, by decide, by decide⟩
  refine ⟨(find_class_walk_propagation envCls wImg "LFoo;" 1 (by decide) hprevW).2
      wOdf1 wCls1 (by decide) (by decide),
    (find_class_walk_propagation envCls wImgHalf "LFoo;" 1 (by decide) hprevH).1 (by decide)⟩

/-- C3 counterexample: a decode failure encountered on dex-file record 0
(the DEX parser finds the class there but its class metadata fails to
decode, the ground-truth failure outcome) is not propagated: the search
skips to dex-file record 1 and returns the class found there. -/
theorem find_class_skips_inner_failure_cex :
    oat_GetOatDexFile wImg 0 = some wOdf0 ∧
    findClassInDexOutcome envCls wOdf0 "LFoo;" = .failure ∧
    oat_FindClass envCls wImg "LFoo;" = some (wOdf1, wCls1) ∧
    wOdf1.index = 1 := by
  decide

/-- C4 as amended: the terse and the richer per-dex-file class resolver
agree (same outcome, class metadata decoded from the same pointer)
whenever the class-definition offset selected for the located class is
non-zero; at offset 0 the richer variant hands the decoder the NULL
resolver result while the terse variant hands it the image base. -/
theorem terse_rich_find_class_agree (env : DexEnv) (odf : OatDexFile) (desc : String)
    (h : ∀ dc, env.dex_FindClass odf.data.dex_file_pointer desc = some dc →
      odf.data.class_definition_offsets.getD
        (env.GetIndexForClassDef odf.data.dex_file_pointer dc.class_def) 0 ≠ 0) :
    Terse.oat_FindClass env odf desc = oat_FindClassInDex env odf desc := by
  rw [Terse.oat_FindClass, oat_FindClassInDex]
  cases hdc : env.dex_FindClass odf.data.dex_file_pointer desc with
  | none => rfl
  | some dc =>
    have hoff := h dc hdc
    simp only [oat_PointerFromFileOffset, if_neg hoff]

/-- C4 witness: on the concrete record whose class-definition offset is
100, the two variants return the identical result. -/
theorem terse_rich_find_class_agree_witness :
    Terse.oat_FindClass envCls wOdf1 "LFoo;" = oat_FindClassInDex envCls wOdf1 "LFoo;" :=
  terse_rich_find_class_agree envCls wOdf1 "LFoo;"
    (fun dc _ => by show (100 : Nat) ≠ 0; decide)

/-- C4 counterexample: on a record whose class-definition offset is 0
(class present in the DEX module), the richer variant resolves the
offset to NULL and its bounds-checked decoder fails, while the terse
variant passes the image base address 4096 to the decoder and succeeds:
the two variants decode from different pointers and return different
outcomes. -/
theorem terse_rich_find_class_diverge_cex :
    envCls.dex_FindClass wOdf0.data.dex_file_pointer "LFoo;" = some { class_def := 7 } ∧
    oat_FindClassInDex envCls wOdf0 "LFoo;" = none ∧
    Terse.oat_FindClass envCls wOdf0 "LFoo;" =
      some { dex_class := { class_def := 7 }, oat_class_data := { tag := 4096 },
             oat_dex_file := wOdf0 } ∧
    oat_PointerFromFileOffset (some wImg) 0 = none ∧
    wImg.begin + 0 = 4096 := by
  decide

/-- C1: on a method the DEX tables contain but whose compiled-code-offset
record is absent, find returns the method and has_compiled_code returns
false as the claim states, but get_entry_point does not return none: it
reads code_offset_ through the absent (NULL) offsets record, which is a
null-pointer dereference (undefined behaviour), because the source
performs no NULL check there despite its own comment that the record can
legitimately be NULL. -/
theorem entry_point_null_offsets_deref :
    oat_FindDirectMethod envNoAot wCls1 "m" "()V" = some wMethNoCode ∧
    oat_FindMethod envNoAot wCls1 "m" "()V" = some wMethNoCode ∧
    oat_HasQuickCompiledCode wMethNoCode = false ∧
    oat_GetQuickCompiledEntryPoint wMethNoCode = .nullDeref := by
  decide
